import Mathlib

/-!
# Windows host shell of the React Native test app

A shallow embedding of `windows/ReactTestApp/MainPage.cpp` and
`windows/ReactTestApp/ReactInstance.h`.

* The `IJSValueWriter` is the list of the calls it has received, oldest first.
* A `std::map<std::string, T>` is the list of its entries in iteration order
  (ascending keys); `StdMap.insert` and `StdMap.ofEntries` build one.
* The page is a record of the widgets and collaborators `MainPage` touches; every
  member function is a function on that record. Work handed to the dispatcher
  (`RunAsync`) and handlers added to the `Loaded` event are kept as data and run
  by `runDispatched` and `fireLoaded`.
* Reading a `std::vector` out of range is undefined behaviour: the functions that
  can do it return `Option`, `none` standing for that case.
-/

namespace ReactTestApp

/-! ## Property values and the value writer -/

/-- A `double`, carried as its IEEE-754 bit pattern: the serializer only hands it on. -/
structure Double where
  bits : Nat
deriving DecidableEq, Repr

/-- The dynamically typed property value (`std::any`) read from the manifest: the eight
types `WritePropertyValue` recognises, and `other` for a value of any other type. -/
inductive PropertyValue where
  | boolean (b : Bool)
  | int64 (i : Int)
  | uint64 (u : Nat)
  | double (d : Double)
  | null
  | string (s : String)
  | array (elements : List PropertyValue)
  | object (entries : List (String × PropertyValue))
  | other
deriving Repr

/-- One call on an `IJSValueWriter`. -/
inductive WriterEvent where
  | WriteBoolean (b : Bool)
  | WriteInt64 (i : Int)
  | WriteDouble (d : Double)
  | WriteNull
  | WriteString (s : String)
  | WriteArrayBegin
  | WriteArrayEnd
  | WriteObjectBegin
  | WritePropertyName (name : String)
  | WriteObjectEnd
deriving DecidableEq, Repr

/-- The writer: the calls received so far, oldest first. -/
abbrev JSValueWriter := List WriterEvent

/-- Lexicographic comparison of two character sequences, a proper initial segment being
smaller (`std::char_traits<char>::compare`). Code points are compared; UTF-8 keeps their
order, so this is the byte order of `std::string`. -/
def lexLess : List Char → List Char → Bool
  | _, [] => false
  | [], _ :: _ => true
  | a :: as, b :: bs =>
    if a.toNat < b.toNat then true
    else if b.toNat < a.toNat then false
    else lexLess as bs

/-- The key order of `std::map<std::string, T>`: `std::less<std::string>`. -/
def stringLess (a b : String) : Bool := lexLess a.data b.data

/-- Embeds `std::map::insert`: the entry goes to its place in the key order; when an equivalent
key is already there the map is left as it is. -/
def StdMap.insert {α : Type} (k : String) (v : α) : List (String × α) → List (String × α)
  | [] => [(k, v)]
  | (k0, v0) :: rest =>
    if stringLess k k0 then (k, v) :: (k0, v0) :: rest
    else if stringLess k0 k then (k0, v0) :: StdMap.insert k v rest
    else (k0, v0) :: rest

/-- A `std::map` built from entries given in some order (each inserted in turn). -/
def StdMap.ofEntries {α : Type} (entries : List (String × α)) : List (String × α) :=
  entries.foldl (fun m e => StdMap.insert e.1 e.2 m) []

/-- The 64-bit two-complement reading of an integer: what passing a `std::uint64_t` where
a `std::int64_t` is expected yields. -/
def toInt64 (u : Nat) : Int := ((u : Int) + 2 ^ 63) % 2 ^ 64 - 2 ^ 63

mutual
/-- Embeds `WritePropertyValue` (MainPage.cpp 81-111). `none` is the failed `assert(false)`. -/
def WritePropertyValue : PropertyValue → JSValueWriter → Option JSValueWriter
  | .boolean b, writer => some (writer ++ [.WriteBoolean b])
  | .int64 i, writer => some (writer ++ [.WriteInt64 i])
  | .uint64 u, writer => some (writer ++ [.WriteInt64 (toInt64 u)])
  | .double d, writer => some (writer ++ [.WriteDouble d])
  | .null, writer => some (writer ++ [.WriteNull])
  | .string s, writer => some (writer ++ [.WriteString s])
  | .array elements, writer =>
    (writeElements elements (writer ++ [.WriteArrayBegin])).map (· ++ [.WriteArrayEnd])
  | .object entries, writer =>
    (writeEntries entries (writer ++ [.WriteObjectBegin])).map (· ++ [.WriteObjectEnd])
  | .other, _ => none
/-- The loop of lines 97-99 over the elements of a `std::vector<std::any>`. -/
def writeElements : List PropertyValue → JSValueWriter → Option JSValueWriter
  | [], writer => some writer
  | e :: rest, writer => (WritePropertyValue e writer).bind (writeElements rest)
/-- The loop of lines 103-106 over the entries of a `std::map`, in its iteration order. -/
def writeEntries : List (String × PropertyValue) → JSValueWriter → Option JSValueWriter
  | [], writer => some writer
  | (name, value) :: rest, writer =>
    (WritePropertyValue value (writer ++ [.WritePropertyName name])).bind (writeEntries rest)
end

/-- The loop of lines 120-124 over the initial properties, in the map's iteration order. -/
def writeInitialProps : List (String × PropertyValue) → JSValueWriter → Option JSValueWriter
  | [], writer => some writer
  | property :: rest, writer =>
    (WritePropertyValue property.2 (writer ++ [.WritePropertyName property.1])).bind
      (writeInitialProps rest)

/-- The callback of lines 117-127 with what it captures: the component's initial
properties, a `std::optional<std::map<std::string, std::any>>`. -/
structure JSValueArgWriter where
  initialProps : Option (List (String × PropertyValue))

/-- Running the callback of lines 117-127 on a writer. -/
def JSValueArgWriter.invoke (f : JSValueArgWriter) (writer : JSValueWriter) :
    Option JSValueWriter :=
  match f.initialProps with
  | some props =>
    (writeInitialProps props (writer ++ [.WriteObjectBegin])).map (· ++ [.WriteObjectEnd])
  | none => some writer

mutual
/-- A value built from the eight supported types only, its integers within their 64-bit
ranges. -/
def PropertyValue.supported : PropertyValue → Bool
  | .boolean _ => true
  | .int64 i => decide (-(2 : Int) ^ 63 ≤ i ∧ i < 2 ^ 63)
  | .uint64 u => decide (u < 2 ^ 64)
  | .double _ => true
  | .null => true
  | .string _ => true
  | .array elements => supportedElements elements
  | .object entries => supportedEntries entries
  | .other => false
/-- Every element is supported. -/
def supportedElements : List PropertyValue → Bool
  | [] => true
  | e :: rest => e.supported && supportedElements rest
/-- Every entry's value is supported. -/
def supportedEntries : List (String × PropertyValue) → Bool
  | [] => true
  | (_, value) :: rest => value.supported && supportedEntries rest
end

mutual
/-- The mapping of tags to writes in the words of the specification (section 4.3): one
write per scalar, an unsigned value written as the signed value it converts to, a
sequence between array-begin and array-end, a mapping between object-begin and
object-end with each key before its value. -/
def referenceWrites : PropertyValue → List WriterEvent
  | .boolean b => [.WriteBoolean b]
  | .int64 i => [.WriteInt64 i]
  | .uint64 u => [.WriteInt64 (if u ≤ 2 ^ 63 - 1 then (u : Int) else (u : Int) - 2 ^ 64)]
  | .double d => [.WriteDouble d]
  | .null => [.WriteNull]
  | .string s => [.WriteString s]
  | .array elements => [.WriteArrayBegin] ++ referenceElements elements ++ [.WriteArrayEnd]
  | .object entries => [.WriteObjectBegin] ++ referenceEntries entries ++ [.WriteObjectEnd]
  | .other => []
/-- The writes of the elements, one after the other. -/
def referenceElements : List PropertyValue → List WriterEvent
  | [] => []
  | e :: rest => referenceWrites e ++ referenceElements rest
/-- The writes of the entries in the order of the list: name, then value. -/
def referenceEntries : List (String × PropertyValue) → List WriterEvent
  | [] => []
  | (name, value) :: rest =>
    [.WritePropertyName name] ++ referenceWrites value ++ referenceEntries rest
end

/-- The specification's reading of the serializer test (section 8): the entries of the
property bag written one after the other in the order in which they are given, inside
object-begin and object-end. -/
def writesInGivenOrder (given : List (String × PropertyValue)) : List WriterEvent :=
  [.WriteObjectBegin] ++ referenceEntries given ++ [.WriteObjectEnd]

/-! ## Manifest, session and instance wrapper -/

/-- Modelled from the spec: `Component` is declared in Manifest.h, which is not among the
sources. Section 3: an app key, an optional display name, an optional presentation style
and an optional initial-properties bag; MainPage.cpp reads exactly these four members and
`Component{appKey}` (line 317) leaves the optional ones empty. -/
structure Component where
  appKey : String
  displayName : Option String := none
  initialProperties : Option (List (String × PropertyValue)) := none
  presentationStyle : Option String := none

/-- Modelled from the spec: `Manifest` is declared in Manifest.h, which is not among the
sources. Section 6: display name, optional bundle root, checksum, ordered components. -/
structure Manifest where
  displayName : String
  bundleRoot : Option String
  checksum : String
  components : List Component

/-- Modelled from the spec: Session.h is not among the sources. Section 3 and 6: a
persisted index of the last-opened component keyed by manifest checksum, and a persisted
boolean "remember last component" flag. -/
structure Session where
  shouldRememberLastComponent : Bool
  lastOpenedComponent : String → Option Nat

/-- Modelled from the spec: `Session::ShouldRememberLastComponent(bool)` of the absent
Session.h, the setter of the persisted flag (section 6). -/
def Session.setShouldRememberLastComponent (enable : Bool) (s : Session) : Session :=
  { s with shouldRememberLastComponent := enable }

/-- Modelled from the spec: `Session::GetLastOpenedComponent(checksum)` of the absent
Session.h: the index persisted under the checksum, if there is one (section 6). -/
def Session.GetLastOpenedComponent (s : Session) (checksum : String) : Option Nat :=
  s.lastOpenedComponent checksum

/-- Modelled from the spec: `Session::StoreComponent(index, checksum)` of the absent
Session.h. Section 4.1 and 8: the index is stored against the checksum, and the store
only occurs while the "remember last component" flag is enabled. -/
def Session.StoreComponent (index : Nat) (checksum : String) (s : Session) : Session :=
  if s.shouldRememberLastComponent then
    { s with lastOpenedComponent := fun c => if c = checksum then some index
                                             else s.lastOpenedComponent c }
  else s

/-- Embeds `JSBundleSource` (ReactInstance.h 25-28). -/
inductive JSBundleSource where
  | DevServer
  | Embedded
deriving DecidableEq, Repr

/-- The `ReactNativeHost` handle a root view is bound to. -/
abbrev ReactNativeHost := Nat

/-- The two closures `InitializeReactMenu` installs as "components registered" delegate. -/
inductive ComponentsRegisteredDelegate where
  | registerAndPresent
  | presentOnly
deriving DecidableEq, Repr

/-- Embeds `ReactInstance` (ReactInstance.h 32-93). The five settings are those of the embedded
runtime, which the accessors declared at lines 45-46 and 76-85 pass through. -/
structure ReactInstance where
  reactNativeHost : ReactNativeHost
  bundleRoot : Option String
  source : JSBundleSource
  onComponentsRegistered : Option ComponentsRegisteredDelegate
  breakOnFirstLine : Bool
  useDirectDebugger : Bool
  useFastRefresh : Bool
  useWebDebugger : Bool
  useCustomDeveloperMenu : Bool

/-- Embeds `ReactInstance::IsFastRefreshAvailable` (ReactInstance.h 58-61). -/
def ReactInstance.IsFastRefreshAvailable (r : ReactInstance) : Bool :=
  r.source == JSBundleSource.DevServer

/-- Embeds `ReactInstance::IsWebDebuggerAvailable` (ReactInstance.h 63-66). -/
def ReactInstance.IsWebDebuggerAvailable (r : ReactInstance) : Bool :=
  r.source == JSBundleSource.DevServer

/-- Embeds `ReactInstance::SetComponentsRegisteredDelegate` (ReactInstance.h 68-72). -/
def ReactInstance.SetComponentsRegisteredDelegate (f : ComponentsRegisteredDelegate)
    (r : ReactInstance) : ReactInstance :=
  { r with onComponentsRegistered := some f }

/-- Modelled from the spec: `ReactInstance::LoadJSBundleFrom` is declared at
ReactInstance.h 42 and defined in ReactInstance.cpp, which is not among the sources.
Section 4.2: it attempts to start the runtime against the source and returns success or
failure; on success it records the active source. `started` is whether the attempt
succeeds. -/
def ReactInstance.LoadJSBundleFrom (source : JSBundleSource) (started : Bool)
    (r : ReactInstance) : Bool × ReactInstance :=
  if started then (true, { r with source := source }) else (false, r)

/-! ## The page -/

/-- Embeds `VirtualKey::Number0` of the Windows SDK. -/
def VirtualKey.Number0 : Int := 48

/-- Embeds `VirtualKey::Number1` of the Windows SDK. -/
def VirtualKey.Number1 : Int := 49

/-- Embeds `VirtualKey::Number9` of the Windows SDK. -/
def VirtualKey.Number9 : Int := 57

/-- Embeds `VirtualKeyModifiers::Control` of the Windows SDK. -/
def VirtualKeyModifiers.Control : Nat := 1

/-- Embeds `VirtualKeyModifiers::Shift` of the Windows SDK. -/
def VirtualKeyModifiers.Shift : Nat := 4

/-- The `operator|` of lines 134-139: bitwise or of the underlying values. -/
def VirtualKeyModifiers.or (lhs rhs : Nat) : Nat := lhs ||| rhs

/-- A `KeyboardAccelerator`: modifiers and key. -/
structure KeyboardAccelerator where
  modifiers : Nat
  key : Int
deriving DecidableEq, Repr

/-- The click handler of lines 396-399 with what it captures. -/
structure ComponentClick where
  component : Component
  index : Nat

/-- A `MenuFlyoutItem` as far as the page sets it. `click` is the handler of lines
396-399 when the item has it. -/
structure MenuFlyoutItem where
  text : String := ""
  isEnabled : Bool := true
  accessKey : String := ""
  keyboardAccelerators : List KeyboardAccelerator := []
  click : Option ComponentClick := none

/-- An entry of `ReactMenuBarItem().Items()`: a `MenuFlyoutSeparator` or an item. -/
inductive MenuItem where
  | separator
  | item (i : MenuFlyoutItem)

/-- The test `item.try_as<MenuFlyoutSeparator>()` of line 382. -/
def MenuItem.isSeparator : MenuItem → Bool
  | .separator => true
  | .item _ => false

/-- Embeds `CoreDispatcherPriority` as far as the page uses it. -/
inductive CoreDispatcherPriority where
  | Low
  | Normal
deriving DecidableEq, Repr

/-- The closures the page hands to `RunAsync`, each with what it captures. -/
inductive DispatchedWork where
  | onComponentsRegistered (components : List Component)
  | loadReactComponent (component : Component)
  | presentReactMenu

/-- A `ReactRootView`: the host it is bound to (`none` for `nullptr`), its component name
and its initial-properties callback. -/
structure RootView where
  reactNativeHost : Option ReactNativeHost
  componentName : String
  initialProps : Option JSValueArgWriter

/-- The items of the debug menu that `InitializeDebugMenu` sets. -/
structure DebugMenu where
  webDebuggerText : String
  webDebuggerEnabled : Bool
  directDebuggingText : String
  breakOnFirstLineText : String
  fastRefreshText : String
  fastRefreshEnabled : Bool
  debugMenuBarItemEnabled : Bool

/-- The page: its members, the widgets it touches, the session store, the handlers added
to its `Loaded` event (each captures a component), the work queued on the dispatcher and
the message dialogs presented so far. -/
structure MainPage where
  reactInstance : ReactInstance
  manifestChecksum : String
  session : Session
  isLoaded : Bool
  loadedHandlers : List Component
  dispatcherQueue : List (CoreDispatcherPriority × DispatchedWork)
  reactMenuItems : List MenuItem
  rememberLastComponentChecked : Bool
  reactRootView : RootView
  dialogReactRootView : RootView
  appTitle : String
  contentDialogTitle : Option String
  contentDialogShown : Nat
  messageDialogs : List String
  debugMenu : DebugMenu
  reactMenuInvoked : Nat

/-- Embeds `SetMenuItemText` (lines 50-57): the caption an item gets. -/
def SetMenuItemText (isEnabled : Bool) (enableText disableText : String) : String :=
  if isEnabled then disableText else enableText

/-- Embeds `SetBreakOnFirstLineMenuItem` (lines 59-63). -/
def SetBreakOnFirstLineMenuItem (value : Bool) : String :=
  SetMenuItemText value "Enable Break on First Line" "Disable Break on First Line"

/-- Embeds `SetDirectDebuggerMenuItem` (lines 65-68). -/
def SetDirectDebuggerMenuItem (value : Bool) : String :=
  SetMenuItemText value "Enable Direct Debugging" "Disable Direct Debugging"

/-- Embeds `SetFastRefreshMenuItem` (lines 70-73). -/
def SetFastRefreshMenuItem (value : Bool) : String :=
  SetMenuItemText value "Enable Fast Refresh" "Disable Fast Refresh"

/-- Embeds `SetWebDebuggerMenuItem` (lines 75-79). -/
def SetWebDebuggerMenuItem (value : Bool) : String :=
  SetMenuItemText value "Enable Remote JS Debugging" "Disable Remote JS Debugging"

/-- Embeds `InitializeReactRootView` (lines 113-128). -/
def InitializeReactRootView (reactRootView : RootView) (component : Component) : RootView :=
  { reactRootView with
    componentName := component.appKey
    initialProps := some { initialProps := component.initialProperties } }

/-- The binding of lines 258-260 and 266-268: a view without host gets the instance's. -/
def RootView.bindHost (view : RootView) (host : ReactNativeHost) : RootView :=
  match view.reactNativeHost with
  | none => { view with reactNativeHost := some host }
  | some _ => view

/-- Embeds `MainPage::LoadReactComponent` (lines 253-273). -/
def LoadReactComponent (component : Component) (p : MainPage) : MainPage :=
  let title := component.displayName.getD component.appKey
  let presentationStyle := component.presentationStyle.getD ""
  if presentationStyle = "modal" then
    { p with
      dialogReactRootView :=
        InitializeReactRootView
          (p.dialogReactRootView.bindHost p.reactInstance.reactNativeHost) component
      contentDialogTitle := some title
      contentDialogShown := p.contentDialogShown + 1 }
  else
    { p with
      reactRootView :=
        InitializeReactRootView
          (p.reactRootView.bindHost p.reactInstance.reactNativeHost) component
      appTitle := title }

/-- Embeds `MainPage::ToggleRememberLastComponent` (lines 191-195); `isChecked` is the state of
the toggle item that sent the event. -/
def ToggleRememberLastComponent (isChecked : Bool) (p : MainPage) : MainPage :=
  { p with session := p.session.setShouldRememberLastComponent isChecked }

/-- The click handler of a component's menu item (lines 396-399). -/
def ComponentClick.invoke (h : ComponentClick) (p : MainPage) : MainPage :=
  let p1 := LoadReactComponent h.component p
  { p1 with session := p1.session.StoreComponent h.index p1.manifestChecksum }

/-- Embeds `MainPage::InitializeDebugMenu` (lines 275-291). -/
def InitializeDebugMenu (p : MainPage) : MainPage :=
  if !p.reactInstance.useCustomDeveloperMenu then p
  else
    { p with
      debugMenu :=
        { webDebuggerText := SetWebDebuggerMenuItem p.reactInstance.useWebDebugger
          webDebuggerEnabled := p.reactInstance.IsWebDebuggerAvailable
          directDebuggingText := SetDirectDebuggerMenuItem p.reactInstance.useDirectDebugger
          breakOnFirstLineText := SetBreakOnFirstLineMenuItem p.reactInstance.breakOnFirstLine
          fastRefreshText := SetFastRefreshMenuItem p.reactInstance.useFastRefresh
          fastRefreshEnabled := p.reactInstance.IsFastRefreshAvailable
          debugMenuBarItemEnabled := true } }

/-- Embeds `MainPage::LoadJSBundleFrom` (lines 243-251); `started` says for each source whether
the runtime can be started against it. -/
def LoadJSBundleFrom (source : JSBundleSource) (started : JSBundleSource → Bool)
    (p : MainPage) : Bool × MainPage :=
  let r := p.reactInstance.LoadJSBundleFrom source (started source)
  if !r.1 then (false, { p with reactInstance := r.2 })
  else (true, InitializeDebugMenu { p with reactInstance := r.2 })

/-- The message of lines 176-186 for the bundle names `JSBundleNames`, a constant defined
outside the sources and taken as a parameter. -/
def bundleNotFoundMessage (JSBundleNames : List String) : String :=
  let message :=
    "No JavaScript bundle with one of the following names was found in the app:\n\n"
  let message :=
    JSBundleNames.foldl (fun m name => m ++ ("    • " ++ name ++ ".bundle\n")) message
  message ++
    ("\nPlease make sure the bundle has been built, is appropriately named, and that it " ++
     "has been added to \x27app.json\x27. You may have to run " ++
     "\x27install-windows-test-app\x27 again " ++
     "to update the project files.\n" ++
     "\n" ++
     "If you meant to use a development server, please make sure it is running.")

/-- Embeds `MainPage::LoadFromJSBundle` (lines 173-189). -/
def LoadFromJSBundle (JSBundleNames : List String) (started : JSBundleSource → Bool)
    (p : MainPage) : MainPage :=
  let r := LoadJSBundleFrom JSBundleSource.Embedded started p
  if !r.1 then
    { r.2 with messageDialogs := r.2.messageDialogs ++ [bundleNotFoundMessage JSBundleNames] }
  else r.2

/-- Embeds `MainPage::LoadFromDevServer` (lines 159-171); `devServerIsRunning` is the answer of
the probe awaited at line 161. -/
def LoadFromDevServer (devServerIsRunning : Bool) (started : JSBundleSource → Bool)
    (p : MainPage) : MainPage :=
  if !devServerIsRunning then
    { p with
      messageDialogs := p.messageDialogs ++
        ["Cannot connect to your development server. Please make sure that it is running and " ++
         "try again."] }
  else (LoadJSBundleFrom JSBundleSource.DevServer started p).2

/-- Embeds `MainPage::OnNavigatedTo` (lines 235-241); `devServerIsRunning` is the answer of the
probe awaited at line 239, `secondProbe` that of the probe `LoadFromDevServer` awaits. -/
def OnNavigatedTo (JSBundleNames : List String) (devServerIsRunning secondProbe : Bool)
    (started : JSBundleSource → Bool) (p : MainPage) : MainPage :=
  if devServerIsRunning then LoadFromDevServer secondProbe started p
  else LoadFromJSBundle JSBundleNames started p

/-- Embeds `MainPage::IsPresenting` (lines 342-345). -/
def IsPresenting (p : MainPage) : Bool := !p.reactRootView.componentName.isEmpty

/-- Embeds `MainPage::PresentReactMenu` (lines 430-438): the work is queued at low priority. -/
def PresentReactMenu (p : MainPage) : MainPage :=
  { p with
    dispatcherQueue :=
      p.dispatcherQueue ++ [(CoreDispatcherPriority.Low, DispatchedWork.presentReactMenu)] }

/-- The loop of lines 380-387. The first argument is `i + 1`; `i` is the index of the
last item throughout, as each round removes the last item and decrements `i`. -/
def removeItemsLoop : Nat → List MenuItem → List MenuItem
  | 0, menuItems => menuItems
  | i + 1, menuItems =>
    match menuItems[i]? with
    | some MenuItem.separator => menuItems
    | _ => removeItemsLoop i menuItems.dropLast

/-- The loop of lines 390-419 from round `i` on, `keyboardAcceleratorKey` being the key
the next accelerator gets. -/
def appendItemsLoop : List Component → Nat → Int → List MenuItem → List MenuItem
  | [], _, _, menuItems => menuItems
  | component :: rest, i, keyboardAcceleratorKey, menuItems =>
    let newMenuItem : MenuFlyoutItem :=
      { text := component.displayName.getD component.appKey
        click := some { component := component, index := i } }
    if keyboardAcceleratorKey ≤ VirtualKey.Number9 then
      let num := keyboardAcceleratorKey - VirtualKey.Number0
      let keyboardAccelerator : KeyboardAccelerator :=
        { modifiers := VirtualKeyModifiers.or VirtualKeyModifiers.Control
            VirtualKeyModifiers.Shift
          key := keyboardAcceleratorKey }
      let newMenuItem :=
        { newMenuItem with
          accessKey := toString num
          keyboardAccelerators := newMenuItem.keyboardAccelerators ++ [keyboardAccelerator] }
      appendItemsLoop rest (i + 1) (keyboardAcceleratorKey + 1)
        (menuItems ++ [MenuItem.item newMenuItem])
    else
      appendItemsLoop rest (i + 1) keyboardAcceleratorKey
        (menuItems ++ [MenuItem.item newMenuItem])

/-- Embeds `MainPage::OnComponentsRegistered` (lines 347-420); `hasThreadAccess` is the answer of
`coreDispatcher.HasThreadAccess()`. `none`: `components[index.value()]` (line 372) read
out of range. -/
def OnComponentsRegistered (hasThreadAccess : Bool) (components : List Component)
    (p : MainPage) : Option MainPage :=
  if !hasThreadAccess then
    some { p with
      dispatcherQueue := p.dispatcherQueue ++
        [(CoreDispatcherPriority.Normal, DispatchedWork.onComponentsRegistered components)] }
  else
    let scheduled : Option MainPage :=
      if p.isLoaded then
        if components.length = 1 then
          components[0]?.map fun component =>
            { p with
              dispatcherQueue := p.dispatcherQueue ++
                [(CoreDispatcherPriority.Normal, DispatchedWork.loadReactComponent component)] }
        else some p
      else
        let index : Option Nat :=
          if components.length = 1 then some 0
          else p.session.GetLastOpenedComponent p.manifestChecksum
        match index with
        | some i =>
          components[i]?.map fun component =>
            { p with loadedHandlers := p.loadedHandlers ++ [component] }
        | none => some p
    scheduled.map fun p =>
      let menuItems := removeItemsLoop p.reactMenuItems.length p.reactMenuItems
      { p with reactMenuItems := appendItemsLoop components 0 VirtualKey.Number1 menuItems }

/-- Embeds `MainPage::InitializeReactMenu` (lines 293-326). -/
def InitializeReactMenu (manifest : Option Manifest) (hasThreadAccess : Bool)
    (p : MainPage) : Option MainPage :=
  let p := { p with rememberLastComponentChecked := p.session.shouldRememberLastComponent }
  match manifest with
  | none =>
    let newMenuItem : MenuFlyoutItem :=
      { text := "Couldn\x27t parse \x27app.json\x27", isEnabled := false }
    some { p with reactMenuItems := p.reactMenuItems ++ [MenuItem.item newMenuItem] }
  | some manifest =>
    let p := { p with appTitle := manifest.displayName }
    if manifest.components.isEmpty then
      some { p with
        reactInstance := p.reactInstance.SetComponentsRegisteredDelegate
          ComponentsRegisteredDelegate.registerAndPresent }
    else
      (OnComponentsRegistered hasThreadAccess manifest.components p).map fun p =>
        { p with
          reactInstance := p.reactInstance.SetComponentsRegisteredDelegate
            ComponentsRegisteredDelegate.presentOnly }

/-- The runtime reporting the registered app keys: the delegate set on the instance is
called (the closures of lines 311-320 and 324). -/
def componentsRegistered (appKeys : List String) (hasThreadAccess : Bool) (p : MainPage) :
    Option MainPage :=
  match p.reactInstance.onComponentsRegistered with
  | none => some p
  | some ComponentsRegisteredDelegate.presentOnly => some (PresentReactMenu p)
  | some ComponentsRegisteredDelegate.registerAndPresent =>
    let components := appKeys.map fun appKey => ({ appKey := appKey } : Component)
    (OnComponentsRegistered hasThreadAccess components p).map PresentReactMenu

/-- The dispatcher running one piece of queued work on the UI thread. -/
def runDispatched (work : DispatchedWork) (p : MainPage) : Option MainPage :=
  match work with
  | .onComponentsRegistered components => OnComponentsRegistered true components p
  | .loadReactComponent component => some (LoadReactComponent component p)
  | .presentReactMenu =>
    if !IsPresenting p then some { p with reactMenuInvoked := p.reactMenuInvoked + 1 }
    else some p

/-- The page finishing its initial layout: `IsLoaded()` becomes true and the handlers added
to `Loaded` run in the order in which they were added. -/
def fireLoaded (p : MainPage) : MainPage :=
  p.loadedHandlers.foldl (fun q component => LoadReactComponent component q)
    { p with isLoaded := true }

/-- The menu items up to and including the last separator; none when there is no
separator. -/
def keepThroughLastSeparator : List MenuItem → List MenuItem
  | [] => []
  | item :: rest =>
    if item.isSeparator || rest.any MenuItem.isSeparator then
      item :: keepThroughLastSeparator rest
    else []

/-- The menu entry the claims describe for the component at position `i` (from 0): its
caption and click handler, and for the first nine positions the access key `i + 1` and one
accelerator, Control+Shift with the numeral key of the position. The values are those of
the Windows SDK, written out: modifiers 5 is Control (1) together with Shift (4), and key
`49 + i` is the numeral `i + 1`, 49 being Number1. -/
def componentMenuItem (i : Nat) (component : Component) : MenuFlyoutItem :=
  { text := component.displayName.getD component.appKey
    isEnabled := true
    accessKey := if i < 9 then toString ((i : Int) + 1) else ""
    keyboardAccelerators := if i < 9 then [{ modifiers := 5, key := 49 + (i : Int) }] else []
    click := some { component := component, index := i } }

/-- A root view nothing has been set on. -/
def RootView.unset : RootView :=
  { reactNativeHost := none, componentName := "", initialProps := none }

/-- The property bag of the serializer test (section 8) as it is given. -/
def exampleProps : List (String × PropertyValue) :=
  [("a", .boolean true), ("b", .int64 1), ("c", .string "x"),
   ("d", .array [.int64 1, .int64 2]), ("e", .object (StdMap.ofEntries [("f", .null)]))]

/-- Ascending keys: every entry's key is below the keys of all later entries. -/
def keysAscending {α : Type} (m : List (String × α)) : Prop :=
  m.Pairwise fun a b => stringLess a.1 b.1 = true

/-- The menu entries built for the components `cs`, the first of them at position `i`. -/
def componentMenuEntries : Nat → List Component → List MenuItem
  | _, [] => []
  | i, component :: rest =>
    MenuItem.item (componentMenuItem i component) :: componentMenuEntries (i + 1) rest

/-- A menu entry that carries at least one keyboard accelerator. -/
def MenuItem.acceleratorBound : MenuItem → Bool
  | .separator => false
  | .item i => !i.keyboardAccelerators.isEmpty

/-- The index line 372 reads, when it reads one, is within the component list: the page
has finished its layout, or there is exactly one component, or the session store has no
index for the checksum or one below the number of components. -/
def storedIndexInRange (components : List Component) (p : MainPage) : Prop :=
  p.isLoaded = true ∨ components.length = 1 ∨
    ∀ i, p.session.GetLastOpenedComponent p.manifestChecksum = some i → i < components.length

/-- The page as `MainPage::MainPage` finds it before `InitializeReactMenu`: nothing
loaded, nothing queued, and the menu of the markup (two load items, a separator, the
"remember last component" toggle and a separator). -/
def examplePage : MainPage :=
  { reactInstance :=
      { reactNativeHost := 1, bundleRoot := none, source := JSBundleSource.DevServer
        onComponentsRegistered := none, breakOnFirstLine := false, useDirectDebugger := false
        useFastRefresh := true, useWebDebugger := false, useCustomDeveloperMenu := true }
    manifestChecksum := "c0ffee"
    session := { shouldRememberLastComponent := true, lastOpenedComponent := fun _ => none }
    isLoaded := false
    loadedHandlers := []
    dispatcherQueue := []
    reactMenuItems :=
      [MenuItem.item { text := "Load from JS bundle" },
       MenuItem.item { text := "Load from dev server" },
       MenuItem.separator,
       MenuItem.item { text := "Remember last opened component" },
       MenuItem.separator]
    rememberLastComponentChecked := false
    reactRootView := RootView.unset
    dialogReactRootView := RootView.unset
    appTitle := ""
    contentDialogTitle := none
    contentDialogShown := 0
    messageDialogs := []
    debugMenu :=
      { webDebuggerText := "", webDebuggerEnabled := false, directDebuggingText := ""
        breakOnFirstLineText := "", fastRefreshText := "", fastRefreshEnabled := false
        debugMenuBarItemEnabled := false }
    reactMenuInvoked := 0 }

/-- Two components: a plain one and a modal one with a display name. -/
def exampleComponents : List Component :=
  [{ appKey := "Example" },
   { appKey := "Modal", displayName := some "Modal screen", presentationStyle := some "modal" }]

/-- The example page with `index` persisted for its manifest checksum. -/
def examplePageStored (index : Nat) : MainPage :=
  { examplePage with
    session :=
      { shouldRememberLastComponent := true
        lastOpenedComponent := fun c => if c = "c0ffee" then some index else none } }

/-! ## Running queued work, and further examples -/

/-- Nine app keys as the runtime reports them. -/
def exampleReportedKeys : List String :=
  ["K1", "K2", "K3", "K4", "K5", "K6", "K7", "K8", "K9"]

/-- The example page after `InitializeReactMenu` on a manifest without components: the
delegate that registers reported app keys is installed. -/
def examplePageAwaitingKeys : MainPage :=
  { examplePage with
    reactInstance :=
      { examplePage.reactInstance with
        onComponentsRegistered := some ComponentsRegisteredDelegate.registerAndPresent } }

/-! ## Well-nested writer events -/

/-- What the reader of a sequence of writer events is inside of: `top` before the one value
of the sequence, `array` inside an array (an element or array-end comes next),
`objectName` inside an object where a property name or object-end comes next, and
`objectValue` right after a property name, where the value of that property comes. -/
inductive NestingFrame where
  | top
  | array
  | objectName
  | objectValue
deriving DecidableEq, Repr

/-- The frames once a complete value has been read: the one value of the sequence is done,
an array goes on, the property of an object has its value. Where a name or nothing is
expected there is no place for a value. -/
def afterValue : List NestingFrame → Option (List NestingFrame)
  | NestingFrame.top :: below => some below
  | NestingFrame.array :: below => some (NestingFrame.array :: below)
  | NestingFrame.objectValue :: below => some (NestingFrame.objectName :: below)
  | _ => none

/-- Reading one writer event: a scalar is a complete value; a begin opens its frame where a
value may stand; an end closes the frame of its own kind, an object only where a name could
come; a property name stands only where a name is expected. `none`: the event is out of
place. -/
def nestingStep (e : WriterEvent) (frames : List NestingFrame) : Option (List NestingFrame) :=
  match e with
  | .WriteBoolean _ => afterValue frames
  | .WriteInt64 _ => afterValue frames
  | .WriteDouble _ => afterValue frames
  | .WriteNull => afterValue frames
  | .WriteString _ => afterValue frames
  | .WriteArrayBegin => (afterValue frames).map fun after => NestingFrame.array :: after
  | .WriteArrayEnd =>
    match frames with
    | NestingFrame.array :: below => some below
    | _ => none
  | .WriteObjectBegin => (afterValue frames).map fun after => NestingFrame.objectName :: after
  | .WritePropertyName _ =>
    match frames with
    | NestingFrame.objectName :: below => some (NestingFrame.objectValue :: below)
    | _ => none
  | .WriteObjectEnd =>
    match frames with
    | NestingFrame.objectName :: below => some below
    | _ => none

/-- Reading a sequence of writer events from the given frames. -/
def scanEvents : List WriterEvent → List NestingFrame → Option (List NestingFrame)
  | [], frames => some frames
  | e :: rest, frames =>
    match nestingStep e frames with
    | some after => scanEvents rest after
    | none => none

/-- The events are one complete well-nested value: read from the start, no event is out of
place and at the end the one value is done, with nothing left open. -/
def oneCompleteValue (events : List WriterEvent) : Bool :=
  scanEvents events [NestingFrame.top] == some []

/-- The events are one balanced object: one complete value that opens with object-begin
(and so closes with the object-end matching it). -/
def oneBalancedObject (events : List WriterEvent) : Bool :=
  oneCompleteValue events && events.head? == some WriterEvent.WriteObjectBegin

/-! # Theorems -/

/-! ## The serializer -/

theorem toInt64_eq (u : Nat) (h : u < 2 ^ 64) :
    toInt64 u = if u ≤ 2 ^ 63 - 1 then (u : Int) else (u : Int) - 2 ^ 64 := by
  unfold toInt64
  split <;> omega

mutual
theorem WritePropertyValue_eq : ∀ (value : PropertyValue) (writer : JSValueWriter),
    value.supported = true →
    WritePropertyValue value writer = some (writer ++ referenceWrites value)
  | .boolean _, _, _ => by simp [WritePropertyValue, referenceWrites]
  | .int64 _, _, _ => by simp [WritePropertyValue, referenceWrites]
  | .uint64 u, _, h => by
    have hu : u < 2 ^ 64 := by simpa [PropertyValue.supported] using h
    simp only [WritePropertyValue, referenceWrites, toInt64_eq u hu]
  | .double _, _, _ => by simp [WritePropertyValue, referenceWrites]
  | .null, _, _ => by simp [WritePropertyValue, referenceWrites]
  | .string _, _, _ => by simp [WritePropertyValue, referenceWrites]
  | .array elements, writer, h => by
    have hs : supportedElements elements = true := by simpa [PropertyValue.supported] using h
    simp [WritePropertyValue, referenceWrites, writeElements_eq elements _ hs]
  | .object entries, writer, h => by
    have hs : supportedEntries entries = true := by simpa [PropertyValue.supported] using h
    simp [WritePropertyValue, referenceWrites, writeEntries_eq entries _ hs]
  | .other, _, h => by simp [PropertyValue.supported] at h
theorem writeElements_eq : ∀ (elements : List PropertyValue) (writer : JSValueWriter),
    supportedElements elements = true →
    writeElements elements writer = some (writer ++ referenceElements elements)
  | [], _, _ => by simp [writeElements, referenceElements]
  | e :: rest, writer, h => by
    simp only [supportedElements, Bool.and_eq_true] at h
    simp [writeElements, referenceElements, WritePropertyValue_eq e writer h.1,
      writeElements_eq rest _ h.2]
theorem writeEntries_eq : ∀ (entries : List (String × PropertyValue)) (writer : JSValueWriter),
    supportedEntries entries = true →
    writeEntries entries writer = some (writer ++ referenceEntries entries)
  | [], _, _ => by simp [writeEntries, referenceEntries]
  | (name, value) :: rest, writer, h => by
    simp only [supportedEntries, Bool.and_eq_true] at h
    simp [writeEntries, referenceEntries, WritePropertyValue_eq value _ h.1,
      writeEntries_eq rest _ h.2]
end

theorem writeInitialProps_eq_writeEntries (props : List (String × PropertyValue)) :
    ∀ writer : JSValueWriter, writeInitialProps props writer = writeEntries props writer := by
  induction props with
  | nil => intro writer; simp [writeInitialProps, writeEntries]
  | cons property rest ih =>
    intro writer
    obtain ⟨name, value⟩ := property
    simp only [writeInitialProps, writeEntries]
    congr 1
    funext w
    exact ih w

theorem lexLess_trans : ∀ (a b c : List Char),
    lexLess a b = true → lexLess b c = true → lexLess a c = true
  | _, [], _, h, _ => by simp [lexLess] at h
  | _, _ :: _, [], _, h => by simp [lexLess] at h
  | [], _ :: _, _ :: _, _, _ => by simp [lexLess]
  | x :: xs, y :: ys, z :: zs, h1, h2 => by
    simp only [lexLess] at h1 h2 ⊢
    split at h1
    · split at h2
      · rw [if_pos (by omega)]
      · split at h2
        · simp at h2
        · rw [if_pos (by omega)]
    · split at h1
      · simp at h1
      · split at h2
        · rw [if_pos (by omega)]
        · split at h2
          · simp at h2
          · rw [if_neg (by omega), if_neg (by omega)]
            exact lexLess_trans xs ys zs h1 h2

theorem stringLess_trans (a b c : String) (h1 : stringLess a b = true)
    (h2 : stringLess b c = true) : stringLess a c = true :=
  lexLess_trans _ _ _ h1 h2

theorem StdMap.insert_keys {α : Type} (k : String) (v : α) (m : List (String × α))
    (e : String × α) (he : e ∈ StdMap.insert k v m) : e = (k, v) ∨ e ∈ m := by
  induction m with
  | nil => simp [StdMap.insert] at he; exact Or.inl he
  | cons hd rest ih =>
    obtain ⟨k0, v0⟩ := hd
    simp only [StdMap.insert] at he
    split at he
    · simp only [List.mem_cons] at he ⊢
      tauto
    · split at he
      · simp only [List.mem_cons] at he ⊢
        rcases he with h | h
        · exact Or.inr (Or.inl h)
        · rcases ih h with h | h
          · exact Or.inl h
          · exact Or.inr (Or.inr h)
      · exact Or.inr he

theorem StdMap.insert_ascending {α : Type} (k : String) (v : α) (m : List (String × α))
    (hm : keysAscending m) : keysAscending (StdMap.insert k v m) := by
  induction m with
  | nil => simp [StdMap.insert, keysAscending]
  | cons hd rest ih =>
    obtain ⟨k0, v0⟩ := hd
    unfold keysAscending at hm ih ⊢
    rw [List.pairwise_cons] at hm
    simp only [StdMap.insert]
    split
    · rename_i hlt
      rw [List.pairwise_cons]
      refine ⟨?_, List.pairwise_cons.mpr hm⟩
      intro e he
      rcases List.mem_cons.mp he with h | h
      · subst h; exact hlt
      · exact stringLess_trans _ _ _ hlt (hm.1 e h)
    · split
      · rename_i hlt
        rw [List.pairwise_cons]
        refine ⟨?_, ih hm.2⟩
        intro e he
        rcases StdMap.insert_keys k v rest e he with h | h
        · subst h; exact hlt
        · exact hm.1 e h
      · exact List.pairwise_cons.mpr hm

theorem StdMap.foldl_insert_ascending {α : Type} (entries : List (String × α)) :
    ∀ m : List (String × α), keysAscending m →
      keysAscending (entries.foldl (fun m e => StdMap.insert e.1 e.2 m) m) := by
  induction entries with
  | nil => intro m hm; simpa using hm
  | cons e rest ih =>
    intro m hm
    simp only [List.foldl_cons]
    exact ih _ (StdMap.insert_ascending e.1 e.2 m hm)

theorem lexLess_irrefl : ∀ a : List Char, lexLess a a = false
  | [] => by simp [lexLess]
  | x :: xs => by simp [lexLess, lexLess_irrefl xs]

theorem lexLess_asymm (a b : List Char) (h : lexLess a b = true) : lexLess b a = false := by
  by_contra hc
  have hba : lexLess b a = true := by simpa using hc
  have := lexLess_trans a b a h hba
  simp [lexLess_irrefl] at this

theorem StdMap.insert_above {α : Type} (k : String) (v : α) :
    ∀ m : List (String × α), (∀ e ∈ m, stringLess e.1 k = true) →
      StdMap.insert k v m = m ++ [(k, v)] := by
  intro m
  induction m with
  | nil => intro _; simp [StdMap.insert]
  | cons hd rest ih =>
    intro h
    obtain ⟨k0, v0⟩ := hd
    have h0 : stringLess k0 k = true := h (k0, v0) (List.mem_cons_self _ _)
    have h1 : stringLess k k0 = false := lexLess_asymm _ _ h0
    simp only [StdMap.insert, h1, h0, if_true, Bool.false_eq_true, if_false, List.cons_append]
    rw [ih (fun e he => h e (List.mem_cons_of_mem _ he))]

theorem StdMap.foldl_insert_of_ascending {α : Type} (given : List (String × α)) :
    ∀ m : List (String × α), keysAscending (m ++ given) →
      given.foldl (fun m e => StdMap.insert e.1 e.2 m) m = m ++ given := by
  induction given with
  | nil => intro m _; simp
  | cons e rest ih =>
    intro m h
    simp only [List.foldl_cons]
    have habove : ∀ x ∈ m, stringLess x.1 e.1 = true := by
      intro x hx
      unfold keysAscending at h
      rw [List.pairwise_append] at h
      exact h.2.2 x hx e (List.mem_cons_self _ _)
    rw [StdMap.insert_above e.1 e.2 m habove]
    have h2 : keysAscending ((m ++ [(e.1, e.2)]) ++ rest) := by simpa using h
    rw [ih _ h2]
    simp

/-- C1 (as stated, refuted). A component whose initial properties are given as
`{e: {g: null, f: null}}`: the callback installed by `InitializeReactRootView` writes the
inner entries as `f`, `g` (the iteration order of the `std::map` holding them), not in the
order `g`, `f` in which they are given. -/
theorem initialProps_given_order_not_kept :
    ((InitializeReactRootView RootView.unset
        { appKey := "App"
          initialProperties := some (StdMap.ofEntries
            [("e", .object (StdMap.ofEntries [("g", .null), ("f", .null)]))]) }).initialProps.bind
        fun callback => callback.invoke [])
      = some [.WriteObjectBegin, .WritePropertyName "e", .WriteObjectBegin,
          .WritePropertyName "f", .WriteNull, .WritePropertyName "g", .WriteNull,
          .WriteObjectEnd, .WriteObjectEnd]
    ∧ ((InitializeReactRootView RootView.unset
        { appKey := "App"
          initialProperties := some (StdMap.ofEntries
            [("e", .object (StdMap.ofEntries [("g", .null), ("f", .null)]))]) }).initialProps.bind
        fun callback => callback.invoke [])
      ≠ some (writesInGivenOrder [("e", .object [("g", .null), ("f", .null)])]) := by
  constructor
  · decide
  · decide

/-- C1 (amended). For every initial-properties mapping of a component, the callback
installed by `InitializeReactRootView` emits object-begin, then for each entry, in the
iteration order of the `std::map` holding the entries, the property name followed by the
writes of `WritePropertyValue` for its value, then object-end. A map built from given
entries iterates by ascending key, whatever the order in which they are given, and that is
the given order when the keys are given ascending. For `{a:true, b:1, c:"x", d:[1,2],
e:{f:null}}` the emitted sequence is the one of the claim. -/
theorem initialProps_callback_writes_in_map_order :
    (∀ (view : RootView) (component : Component) (props : List (String × PropertyValue))
        (writer : JSValueWriter),
        component.initialProperties = some props → supportedEntries props = true →
        ∃ callback, (InitializeReactRootView view component).initialProps = some callback ∧
          callback.invoke writer =
            some (writer ++ [.WriteObjectBegin] ++ referenceEntries props ++ [.WriteObjectEnd]))
    ∧ (∀ given : List (String × PropertyValue), keysAscending (StdMap.ofEntries given))
    ∧ (∀ given : List (String × PropertyValue), keysAscending given →
        StdMap.ofEntries given = given)
    ∧ ((InitializeReactRootView RootView.unset
          { appKey := "App"
            initialProperties := some (StdMap.ofEntries exampleProps) }).initialProps.bind
          fun callback => callback.invoke [])
        = some [.WriteObjectBegin,
            .WritePropertyName "a", .WriteBoolean true,
            .WritePropertyName "b", .WriteInt64 1,
            .WritePropertyName "c", .WriteString "x",
            .WritePropertyName "d", .WriteArrayBegin, .WriteInt64 1, .WriteInt64 2,
              .WriteArrayEnd,
            .WritePropertyName "e", .WriteObjectBegin, .WritePropertyName "f", .WriteNull,
              .WriteObjectEnd,
            .WriteObjectEnd] := by
  refine ⟨?_, ?_, ?_, by decide⟩
  · intro view component props writer hprops hs
    refine ⟨{ initialProps := component.initialProperties }, rfl, ?_⟩
    simp [JSValueArgWriter.invoke, hprops, writeInitialProps_eq_writeEntries,
      writeEntries_eq props _ hs]
  · intro given
    exact StdMap.foldl_insert_ascending given [] List.Pairwise.nil
  · intro given h
    have := StdMap.foldl_insert_of_ascending given [] (by simpa using h)
    simpa [StdMap.ofEntries] using this

/-- Witness of C1 (amended): the statement at a mapping given as `{a: true, b: 1}`. -/
theorem initialProps_callback_writes_in_map_order_witness :
    (∃ callback,
      (InitializeReactRootView RootView.unset
        { appKey := "App"
          initialProperties := some [("a", .boolean true), ("b", .int64 1)] }).initialProps
        = some callback ∧
      callback.invoke [] =
        some ([] ++ [.WriteObjectBegin] ++
          referenceEntries [("a", .boolean true), ("b", .int64 1)] ++ [.WriteObjectEnd]))
    ∧ StdMap.ofEntries [("a", PropertyValue.boolean true), ("b", .int64 1)]
        = [("a", .boolean true), ("b", .int64 1)] :=
  ⟨initialProps_callback_writes_in_map_order.1 RootView.unset
      { appKey := "App", initialProperties := some [("a", .boolean true), ("b", .int64 1)] }
      [("a", .boolean true), ("b", .int64 1)] [] rfl (by decide),
   initialProps_callback_writes_in_map_order.2.2.1 [("a", .boolean true), ("b", .int64 1)]
      (by simp [keysAscending]; decide)⟩

/-- C2. For every property value built from the eight supported tags,
`WritePropertyValue` appends to the writer exactly the writes of the reference mapping:
one boolean, integer, floating-point, null or string write for a scalar, an unsigned
64-bit value written unvalidated as the signed value it converts to (itself up to
`2^63-1`, less `2^64` above), a sequence as array-begin, its elements in order, array-end,
and a mapping as object-begin, each entry's name and value, object-end. -/
theorem WritePropertyValue_writes_reference (value : PropertyValue) (writer : JSValueWriter)
    (h : value.supported = true) :
    WritePropertyValue value writer = some (writer ++ referenceWrites value) :=
  WritePropertyValue_eq value writer h

/-- Witness of C2: an array holding the largest unsigned value, a double and a mapping. -/
theorem WritePropertyValue_writes_reference_witness :
    (PropertyValue.array [.uint64 (2 ^ 64 - 1), .double ⟨0⟩,
        .object [("k", .string "v")]]).supported = true
    ∧ WritePropertyValue
        (.array [.uint64 (2 ^ 64 - 1), .double ⟨0⟩, .object [("k", .string "v")]]) []
      = some ([] ++ referenceWrites
          (.array [.uint64 (2 ^ 64 - 1), .double ⟨0⟩, .object [("k", .string "v")]])) :=
  ⟨by decide, WritePropertyValue_writes_reference _ [] (by decide)⟩

/-! ## The menu rebuild -/

theorem keepThroughLastSeparator_concat (init : List MenuItem) (x : MenuItem) :
    keepThroughLastSeparator (init ++ [x]) =
      if x.isSeparator then init ++ [x] else keepThroughLastSeparator init := by
  induction init with
  | nil => cases x <;> simp [keepThroughLastSeparator, MenuItem.isSeparator]
  | cons hd rest ih =>
    have hk : keepThroughLastSeparator (hd :: (rest ++ [x])) =
        if hd.isSeparator || (rest ++ [x]).any MenuItem.isSeparator then
          hd :: keepThroughLastSeparator (rest ++ [x])
        else [] := rfl
    have hk2 : keepThroughLastSeparator (hd :: rest) =
        if hd.isSeparator || rest.any MenuItem.isSeparator then
          hd :: keepThroughLastSeparator rest
        else [] := rfl
    rw [List.cons_append, hk, hk2, ih]
    cases hx : x.isSeparator
    · simp [hx]
    · simp [hx]

theorem removeItemsLoop_eq (menuItems : List MenuItem) :
    removeItemsLoop menuItems.length menuItems = keepThroughLastSeparator menuItems := by
  induction menuItems using List.reverseRecOn with
  | nil => simp [removeItemsLoop, keepThroughLastSeparator]
  | append_singleton init x ih =>
    rw [keepThroughLastSeparator_concat]
    simp only [List.length_append, List.length_singleton, removeItemsLoop]
    have hget : (init ++ [x])[init.length]? = some x := by simp
    rw [hget]
    cases x with
    | separator => simp [MenuItem.isSeparator]
    | item i => simp [MenuItem.isSeparator, ih]

theorem appendItemsLoop_eq : ∀ (components : List Component) (i : Nat)
    (menuItems : List MenuItem),
    appendItemsLoop components i (VirtualKey.Number1 + ((min i 9 : Nat) : Int)) menuItems =
      menuItems ++ componentMenuEntries i components
  | [], _, _ => by simp [appendItemsLoop, componentMenuEntries]
  | component :: rest, i, menuItems => by
    have ih := appendItemsLoop_eq rest (i + 1)
    simp only [appendItemsLoop, componentMenuEntries]
    by_cases hi : i < 9
    · have h1 : VirtualKey.Number1 + ((min i 9 : Nat) : Int) ≤ VirtualKey.Number9 := by
        simp only [VirtualKey.Number1, VirtualKey.Number9]; omega
      have h2 : VirtualKey.Number1 + ((min i 9 : Nat) : Int) + 1 =
          VirtualKey.Number1 + ((min (i + 1) 9 : Nat) : Int) := by
        simp only [VirtualKey.Number1]; omega
      have h3 : VirtualKey.Number1 + ((min i 9 : Nat) : Int) - VirtualKey.Number0 =
          (i : Int) + 1 := by
        simp only [VirtualKey.Number1, VirtualKey.Number0]; omega
      have h4 : VirtualKey.Number1 + ((min i 9 : Nat) : Int) = 49 + (i : Int) := by
        simp only [VirtualKey.Number1]; omega
      have h5 : VirtualKeyModifiers.or VirtualKeyModifiers.Control VirtualKeyModifiers.Shift
          = 5 := by decide
      rw [if_pos h1, h2, ih, h3, h4, h5]
      simp [componentMenuItem, hi]
    · have h1 : ¬ VirtualKey.Number1 + ((min i 9 : Nat) : Int) ≤ VirtualKey.Number9 := by
        simp only [VirtualKey.Number1, VirtualKey.Number9]; omega
      have h2 : VirtualKey.Number1 + ((min i 9 : Nat) : Int) =
          VirtualKey.Number1 + ((min (i + 1) 9 : Nat) : Int) := by
        simp only [VirtualKey.Number1]; omega
      rw [if_neg h1, h2, ih]
      simp [componentMenuItem, hi]

theorem rebuild_eq (menuItems : List MenuItem) (components : List Component) :
    appendItemsLoop components 0 VirtualKey.Number1
        (removeItemsLoop menuItems.length menuItems) =
      keepThroughLastSeparator menuItems ++ componentMenuEntries 0 components := by
  have h := appendItemsLoop_eq components 0 (removeItemsLoop menuItems.length menuItems)
  simp only [Nat.zero_min, Nat.cast_zero, add_zero] at h
  rw [h, removeItemsLoop_eq]

theorem componentMenuEntries_length : ∀ (components : List Component) (i : Nat),
    (componentMenuEntries i components).length = components.length
  | [], _ => by simp [componentMenuEntries]
  | _ :: rest, i => by simp [componentMenuEntries, componentMenuEntries_length rest (i + 1)]

theorem componentMenuEntries_get : ∀ (components : List Component) (i j : Nat) (c : Component),
    components[j]? = some c →
    (componentMenuEntries i components)[j]? = some (MenuItem.item (componentMenuItem (i + j) c))
  | [], _, _, _, h => by simp at h
  | hd :: rest, i, 0, c, h => by
    simp only [List.getElem?_cons_zero, Option.some.injEq] at h
    simp [componentMenuEntries, h]
  | hd :: rest, i, j + 1, c, h => by
    simp only [List.getElem?_cons_succ] at h
    have := componentMenuEntries_get rest (i + 1) j c h
    simp only [componentMenuEntries, List.getElem?_cons_succ, this]
    congr 3
    omega

theorem componentMenuEntries_bound : ∀ (components : List Component) (i : Nat),
    ((componentMenuEntries i components).filter MenuItem.acceleratorBound).length =
      min components.length (9 - i)
  | [], _ => by simp [componentMenuEntries]
  | hd :: rest, i => by
    have ih := componentMenuEntries_bound rest (i + 1)
    simp only [componentMenuEntries, List.filter_cons, MenuItem.acceleratorBound,
      componentMenuItem]
    by_cases hi : i < 9
    · simp only [hi, if_true, List.isEmpty_cons, Bool.not_false, List.length_cons, ih]
      omega
    · simp only [hi, if_false, List.isEmpty_nil, Bool.not_true, Bool.false_eq_true, ih,
        List.length_cons]
      omega

/-! ## The registration handler -/

theorem OnComponentsRegistered_single (c : Component) (p : MainPage) :
    OnComponentsRegistered true [c] p =
      some (if p.isLoaded then
        { p with
          dispatcherQueue := p.dispatcherQueue ++
            [(CoreDispatcherPriority.Normal, DispatchedWork.loadReactComponent c)]
          reactMenuItems := keepThroughLastSeparator p.reactMenuItems ++
            componentMenuEntries 0 [c] }
      else
        { p with
          loadedHandlers := p.loadedHandlers ++ [c]
          reactMenuItems := keepThroughLastSeparator p.reactMenuItems ++
            componentMenuEntries 0 [c] }) := by
  unfold OnComponentsRegistered
  cases hl : p.isLoaded <;> simp [rebuild_eq]

theorem OnComponentsRegistered_loaded (components : List Component) (p : MainPage)
    (hn : components.length ≠ 1) (hl : p.isLoaded = true) :
    OnComponentsRegistered true components p =
      some { p with
        reactMenuItems := keepThroughLastSeparator p.reactMenuItems ++
          componentMenuEntries 0 components } := by
  unfold OnComponentsRegistered
  simp [hl, hn, rebuild_eq]

theorem OnComponentsRegistered_stored (components : List Component) (p : MainPage)
    (i : Nat) (c : Component) (hn : components.length ≠ 1) (hl : p.isLoaded = false)
    (hs : p.session.GetLastOpenedComponent p.manifestChecksum = some i)
    (hc : components[i]? = some c) :
    OnComponentsRegistered true components p =
      some { p with
        loadedHandlers := p.loadedHandlers ++ [c]
        reactMenuItems := keepThroughLastSeparator p.reactMenuItems ++
          componentMenuEntries 0 components } := by
  unfold OnComponentsRegistered
  simp [hl, hn, hs, hc, rebuild_eq]

theorem OnComponentsRegistered_not_stored (components : List Component) (p : MainPage)
    (hn : components.length ≠ 1) (hl : p.isLoaded = false)
    (hs : p.session.GetLastOpenedComponent p.manifestChecksum = none) :
    OnComponentsRegistered true components p =
      some { p with
        reactMenuItems := keepThroughLastSeparator p.reactMenuItems ++
          componentMenuEntries 0 components } := by
  unfold OnComponentsRegistered
  simp [hl, hn, hs, rebuild_eq]

theorem OnComponentsRegistered_shape (components : List Component) (p p1 : MainPage)
    (h : OnComponentsRegistered true components p = some p1) :
    ∃ queue handlers, p1 =
      { p with
        dispatcherQueue := queue
        loadedHandlers := handlers
        reactMenuItems := keepThroughLastSeparator p.reactMenuItems ++
          componentMenuEntries 0 components } := by
  by_cases hn : components.length = 1
  · obtain ⟨c, rfl⟩ := List.length_eq_one.mp hn
    rw [OnComponentsRegistered_single] at h
    rcases Bool.eq_false_or_eq_true p.isLoaded with hl | hl
    · rw [if_pos hl] at h
      exact ⟨p.dispatcherQueue ++
        [(CoreDispatcherPriority.Normal, DispatchedWork.loadReactComponent c)],
        p.loadedHandlers, (Option.some.inj h).symm⟩
    · rw [if_neg (by simp [hl])] at h
      exact ⟨p.dispatcherQueue, p.loadedHandlers ++ [c], (Option.some.inj h).symm⟩
  · rcases Bool.eq_false_or_eq_true p.isLoaded with hl | hl
    swap
    · cases hs : p.session.GetLastOpenedComponent p.manifestChecksum with
      | none =>
        rw [OnComponentsRegistered_not_stored components p hn hl hs] at h
        exact ⟨p.dispatcherQueue, p.loadedHandlers, (Option.some.inj h).symm⟩
      | some i =>
        cases hc : components[i]? with
        | none =>
          unfold OnComponentsRegistered at h
          simp [hl, hn, hs, hc] at h
        | some c =>
          rw [OnComponentsRegistered_stored components p i c hn hl hs hc] at h
          exact ⟨p.dispatcherQueue, p.loadedHandlers ++ [c], (Option.some.inj h).symm⟩
    · rw [OnComponentsRegistered_loaded components p hn hl] at h
      exact ⟨p.dispatcherQueue, p.loadedHandlers, (Option.some.inj h).symm⟩

theorem OnComponentsRegistered_defined (components : List Component) (p : MainPage)
    (h : storedIndexInRange components p) :
    ∃ p1, OnComponentsRegistered true components p = some p1 := by
  by_cases hn : components.length = 1
  · obtain ⟨c, rfl⟩ := List.length_eq_one.mp hn
    exact ⟨_, OnComponentsRegistered_single c p⟩
  · rcases Bool.eq_false_or_eq_true p.isLoaded with hl | hl
    swap
    · cases hs : p.session.GetLastOpenedComponent p.manifestChecksum with
      | none => exact ⟨_, OnComponentsRegistered_not_stored components p hn hl hs⟩
      | some i =>
        have hi : i < components.length := by
          rcases h with h | h | h
          · simp [hl] at h
          · exact absurd h hn
          · exact h i hs
        exact ⟨_, OnComponentsRegistered_stored components p i components[i] hn hl hs
          (List.getElem?_eq_getElem hi)⟩
    · exact ⟨_, OnComponentsRegistered_loaded components p hn hl⟩

theorem fireLoaded_append (p : MainPage) (handlers : List Component) (c : Component) :
    fireLoaded { p with loadedHandlers := handlers ++ [c] } =
      LoadReactComponent c
        (handlers.foldl (fun q component => LoadReactComponent component q)
          { p with loadedHandlers := handlers ++ [c], isLoaded := true }) := by
  simp [fireLoaded, List.foldl_append]

/-- C3. For every component list of length exactly 1, `[c]`, and every page, whatever its
session store holds, `OnComponentsRegistered` schedules the load of `c`, the component at
index 0: when the page has finished its layout it queues `LoadReactComponent(c)` on the
dispatcher, and when it has not it adds a `Loaded` handler that loads `c`; the result is the
same under every session store. Called off the UI thread it queues itself, and the queued
call is the one on the UI thread. -/
theorem single_component_loaded_whatever_session (c : Component) (p : MainPage) :
    (p.isLoaded = true →
      OnComponentsRegistered true [c] p =
        some { p with
          dispatcherQueue := p.dispatcherQueue ++
            [(CoreDispatcherPriority.Normal, DispatchedWork.loadReactComponent c)]
          reactMenuItems := keepThroughLastSeparator p.reactMenuItems ++
            componentMenuEntries 0 [c] })
    ∧ (p.isLoaded = false →
      OnComponentsRegistered true [c] p =
        some { p with
          loadedHandlers := p.loadedHandlers ++ [c]
          reactMenuItems := keepThroughLastSeparator p.reactMenuItems ++
            componentMenuEntries 0 [c] })
    ∧ (∀ s : Session,
      OnComponentsRegistered true [c] { p with session := s } =
        (OnComponentsRegistered true [c] p).map fun q => { q with session := s })
    ∧ (∀ q : MainPage,
      runDispatched (DispatchedWork.loadReactComponent c) q = some (LoadReactComponent c q))
    ∧ (∀ (q : MainPage) (handlers : List Component),
      fireLoaded { q with loadedHandlers := handlers ++ [c] } =
        LoadReactComponent c
          (handlers.foldl (fun r component => LoadReactComponent component r)
            { q with loadedHandlers := handlers ++ [c], isLoaded := true }))
    ∧ OnComponentsRegistered false [c] p =
        some { p with
          dispatcherQueue := p.dispatcherQueue ++
            [(CoreDispatcherPriority.Normal, DispatchedWork.onComponentsRegistered [c])] }
    ∧ (∀ q : MainPage,
      runDispatched (DispatchedWork.onComponentsRegistered [c]) q =
        OnComponentsRegistered true [c] q) := by
  refine ⟨?_, ?_, ?_, fun _ => rfl, fun q handlers => fireLoaded_append q handlers c, ?_,
    fun _ => rfl⟩
  · intro hl
    rw [OnComponentsRegistered_single, if_pos hl]
  · intro hl
    rw [OnComponentsRegistered_single, if_neg (by simp [hl])]
  · intro s
    rw [OnComponentsRegistered_single, OnComponentsRegistered_single]
    rcases Bool.eq_false_or_eq_true p.isLoaded with hl | hl <;> simp [hl]
  · simp [OnComponentsRegistered]

/-- Witness of C3: the single component `Example` on the example page, before its layout
(a stale index 7 persisted) and after it. -/
theorem single_component_loaded_whatever_session_witness :
    (examplePageStored 7).isLoaded = false
    ∧ OnComponentsRegistered true [{ appKey := "Example" }] (examplePageStored 7) =
        some { examplePageStored 7 with
          loadedHandlers := (examplePageStored 7).loadedHandlers ++ [{ appKey := "Example" }]
          reactMenuItems := keepThroughLastSeparator (examplePageStored 7).reactMenuItems ++
            componentMenuEntries 0 [{ appKey := "Example" }] }
    ∧ ({ examplePageStored 7 with isLoaded := true } : MainPage).isLoaded = true
    ∧ OnComponentsRegistered true [{ appKey := "Example" }]
          { examplePageStored 7 with isLoaded := true } =
        some { examplePageStored 7 with
          isLoaded := true
          dispatcherQueue := (examplePageStored 7).dispatcherQueue ++
            [(CoreDispatcherPriority.Normal,
              DispatchedWork.loadReactComponent { appKey := "Example" })]
          reactMenuItems := keepThroughLastSeparator (examplePageStored 7).reactMenuItems ++
            componentMenuEntries 0 [{ appKey := "Example" }] } :=
  ⟨rfl,
   (single_component_loaded_whatever_session { appKey := "Example" }
      (examplePageStored 7)).2.1 rfl,
   rfl,
   (single_component_loaded_whatever_session { appKey := "Example" }
      { examplePageStored 7 with isLoaded := true }).1 rfl⟩

/-- C4. For every component list of length N > 1 and every index I < N that the session
store returns for the manifest checksum, `OnComponentsRegistered` running before the page
has finished its layout reads the component at index I (the read is in range), adds exactly
one `Loaded` handler, which loads that component, and queues no load; on a page without
earlier `Loaded` handlers, layout completion loads exactly that component. -/
theorem stored_component_loaded_on_layout (components : List Component) (p : MainPage)
    (i : Nat) (hn : 1 < components.length) (hi : i < components.length)
    (hl : p.isLoaded = false)
    (hs : p.session.GetLastOpenedComponent p.manifestChecksum = some i) :
    ∃ c, components[i]? = some c ∧
      OnComponentsRegistered true components p =
        some { p with
          loadedHandlers := p.loadedHandlers ++ [c]
          reactMenuItems := keepThroughLastSeparator p.reactMenuItems ++
            componentMenuEntries 0 components } ∧
      (p.loadedHandlers = [] →
        ∃ p1, OnComponentsRegistered true components p = some p1 ∧
          p1.loadedHandlers = [c] ∧ p1.dispatcherQueue = p.dispatcherQueue ∧
          fireLoaded p1 = LoadReactComponent c { p1 with isLoaded := true }) := by
  have hc : components[i]? = some components[i] := List.getElem?_eq_getElem hi
  have hrun := OnComponentsRegistered_stored components p i components[i] (by omega) hl hs hc
  refine ⟨components[i], hc, hrun, ?_⟩
  intro hh
  refine ⟨_, hrun, by simp [hh], rfl, ?_⟩
  simp [fireLoaded, hh]

/-- Witness of C4: two components, index 1 persisted, the example page before its layout. -/
theorem stored_component_loaded_on_layout_witness :
    ∃ c, exampleComponents[1]? = some c ∧
      OnComponentsRegistered true exampleComponents (examplePageStored 1) =
        some { examplePageStored 1 with
          loadedHandlers := (examplePageStored 1).loadedHandlers ++ [c]
          reactMenuItems := keepThroughLastSeparator (examplePageStored 1).reactMenuItems ++
            componentMenuEntries 0 exampleComponents } ∧
      ((examplePageStored 1).loadedHandlers = [] →
        ∃ p1, OnComponentsRegistered true exampleComponents (examplePageStored 1) = some p1 ∧
          p1.loadedHandlers = [c] ∧
          p1.dispatcherQueue = (examplePageStored 1).dispatcherQueue ∧
          fireLoaded p1 = LoadReactComponent c { p1 with isLoaded := true }) :=
  stored_component_loaded_on_layout exampleComponents (examplePageStored 1) 1
    (by decide) (by decide) rfl rfl

/-- C5 (as stated, refuted). Two components, index 1 persisted for the manifest checksum,
the page already laid out: `OnComponentsRegistered` queues nothing, adds no `Loaded`
handler and leaves both root views without a component; the component at the stored index
is not loaded. -/
theorem stored_index_ignored_after_layout :
    ({ examplePageStored 1 with isLoaded := true } : MainPage).session.GetLastOpenedComponent
        ({ examplePageStored 1 with isLoaded := true } : MainPage).manifestChecksum = some 1
    ∧ ∃ p1, OnComponentsRegistered true exampleComponents
          { examplePageStored 1 with isLoaded := true } = some p1 ∧
        p1.dispatcherQueue = [] ∧ p1.loadedHandlers = [] ∧
        p1.reactRootView.componentName = "" ∧ p1.dialogReactRootView.componentName = "" ∧
        fireLoaded p1 = { p1 with isLoaded := true } :=
  ⟨rfl, _, OnComponentsRegistered_loaded exampleComponents
      { examplePageStored 1 with isLoaded := true } (by decide) rfl, rfl, rfl, rfl, rfl, rfl⟩

/-- C5 (amended). For every component list of length N > 1, whether or not a last-opened
index is persisted for the manifest checksum, when the page has already finished its layout
`OnComponentsRegistered` loads no component: it queues no work, adds no `Loaded` handler
and changes nothing but the menu entries, and the result is the same under every session
store. -/
theorem no_component_loaded_after_layout (components : List Component) (p : MainPage)
    (hn : 1 < components.length) (hl : p.isLoaded = true) :
    OnComponentsRegistered true components p =
      some { p with
        reactMenuItems := keepThroughLastSeparator p.reactMenuItems ++
          componentMenuEntries 0 components }
    ∧ (∀ s : Session,
      OnComponentsRegistered true components { p with session := s } =
        some { p with
          session := s
          reactMenuItems := keepThroughLastSeparator p.reactMenuItems ++
            componentMenuEntries 0 components }) :=
  ⟨OnComponentsRegistered_loaded components p (by omega) hl,
   fun s => OnComponentsRegistered_loaded components { p with session := s } (by omega) hl⟩

/-- Witness of C5 (amended): two components, index 1 persisted, the page laid out. -/
theorem no_component_loaded_after_layout_witness :
    1 < exampleComponents.length
    ∧ OnComponentsRegistered true exampleComponents
          { examplePageStored 1 with isLoaded := true } =
        some { examplePageStored 1 with
          isLoaded := true
          reactMenuItems := keepThroughLastSeparator (examplePageStored 1).reactMenuItems ++
            componentMenuEntries 0 exampleComponents } :=
  ⟨by decide,
   (no_component_loaded_after_layout exampleComponents
      { examplePageStored 1 with isLoaded := true } (by decide) rfl).1⟩

/-! ## Loading a component, the session and the bundle -/

theorem LoadReactComponent_session (component : Component) (p : MainPage) :
    (LoadReactComponent component p).session = p.session ∧
      (LoadReactComponent component p).manifestChecksum = p.manifestChecksum := by
  unfold LoadReactComponent
  by_cases h : component.presentationStyle.getD "" = "modal" <;> simp [h]

theorem getD_eq_modal (style : Option String) :
    style.getD "" = "modal" ↔ style = some "modal" := by
  cases style with
  | none => simp
  | some s => simp

theorem foldl_append_init (parts : List String) :
    ∀ init : String,
      parts.foldl (fun r s => r ++ s) init = init ++ parts.foldl (fun r s => r ++ s) "" := by
  induction parts with
  | nil => intro init; simp
  | cons s rest ih =>
    intro init
    simp only [List.foldl_cons, String.empty_append]
    rw [ih (init ++ s), ih s, String.append_assoc]

theorem foldl_append_eq_join (f : String → String) (names : List String) :
    ∀ init : String,
      names.foldl (fun m name => m ++ f name) init = init ++ String.join (names.map f) := by
  intro init
  have h : names.foldl (fun m name => m ++ f name) init =
      (names.map f).foldl (fun r s => r ++ s) init := by
    rw [List.foldl_map]
  rw [h, foldl_append_init]
  rfl

/-- C6. After "remember last component" is toggled off, the click handler of the menu
entry of any component J leaves the index persisted for every checksum, the manifest
checksum among them, as it was; while the flag is enabled the click handler stores J
against the manifest checksum, and while it is disabled it leaves the session store as it
is. -/
theorem click_stores_only_while_remembering (h : ComponentClick) (p : MainPage) :
    (∀ checksum : String,
      (h.invoke (ToggleRememberLastComponent false p)).session.GetLastOpenedComponent checksum
        = p.session.GetLastOpenedComponent checksum)
    ∧ (p.session.shouldRememberLastComponent = true →
      (h.invoke p).session.GetLastOpenedComponent p.manifestChecksum = some h.index)
    ∧ (p.session.shouldRememberLastComponent = false → (h.invoke p).session = p.session)
    ∧ (h.invoke (ToggleRememberLastComponent true p)).session.GetLastOpenedComponent
        p.manifestChecksum = some h.index := by
  refine ⟨?_, ?_, ?_, ?_⟩
  · intro checksum
    simp [ComponentClick.invoke, ToggleRememberLastComponent, LoadReactComponent_session,
      Session.StoreComponent, Session.setShouldRememberLastComponent,
      Session.GetLastOpenedComponent]
  · intro hr
    simp [ComponentClick.invoke, LoadReactComponent_session, Session.StoreComponent, hr,
      Session.GetLastOpenedComponent]
  · intro hr
    simp [ComponentClick.invoke, LoadReactComponent_session, Session.StoreComponent, hr]
  · simp [ComponentClick.invoke, ToggleRememberLastComponent, LoadReactComponent_session,
      Session.StoreComponent, Session.setShouldRememberLastComponent,
      Session.GetLastOpenedComponent]

/-- Witness of C6: index 1 persisted, the flag on; the entry of component 0 is clicked. -/
theorem click_stores_only_while_remembering_witness :
    (examplePageStored 1).session.shouldRememberLastComponent = true
    ∧ (ComponentClick.invoke { component := { appKey := "Example" }, index := 0 }
        (examplePageStored 1)).session.GetLastOpenedComponent
          (examplePageStored 1).manifestChecksum = some 0
    ∧ (ComponentClick.invoke { component := { appKey := "Example" }, index := 0 }
        (ToggleRememberLastComponent false (examplePageStored 1))).session.GetLastOpenedComponent
          "c0ffee" = some 1 :=
  ⟨rfl,
   (click_stores_only_while_remembering
      { component := { appKey := "Example" }, index := 0 } (examplePageStored 1)).2.1 rfl,
   ((click_stores_only_while_remembering
      { component := { appKey := "Example" }, index := 0 } (examplePageStored 1)).1
        "c0ffee").trans (by simp [examplePageStored, Session.GetLastOpenedComponent])⟩

/-- C7. When the dev-server probe answers false and the instance cannot load the embedded
bundle, `OnNavigatedTo` presents exactly one dialog, whose text is the bundle-search
message: its opening, one bullet line `name.bundle` for every name of `JSBundleNames` in
order, and its closing; the debug menu is not refreshed, no component is loaded (both root
views, the titles, the dispatcher queue and the `Loaded` handlers are as before). -/
theorem no_bundle_presents_one_dialog (JSBundleNames : List String) (secondProbe : Bool)
    (started : JSBundleSource → Bool) (p : MainPage)
    (hs : started JSBundleSource.Embedded = false) :
    (OnNavigatedTo JSBundleNames false secondProbe started p).messageDialogs =
        p.messageDialogs ++ [bundleNotFoundMessage JSBundleNames]
    ∧ bundleNotFoundMessage JSBundleNames =
        "No JavaScript bundle with one of the following names was found in the app:\n\n" ++
          String.join (JSBundleNames.map fun name => "    • " ++ name ++ ".bundle\n") ++
          ("\nPlease make sure the bundle has been built, is appropriately named, and that " ++
           "it has been added to \x27app.json\x27. You may have to run " ++
           "\x27install-windows-test-app\x27 again to update the project files.\n\n" ++
           "If you meant to use a development server, please make sure it is running.")
    ∧ (OnNavigatedTo JSBundleNames false secondProbe started p).debugMenu = p.debugMenu
    ∧ (OnNavigatedTo JSBundleNames false secondProbe started p).reactRootView = p.reactRootView
    ∧ (OnNavigatedTo JSBundleNames false secondProbe started p).dialogReactRootView =
        p.dialogReactRootView
    ∧ (OnNavigatedTo JSBundleNames false secondProbe started p).appTitle = p.appTitle
    ∧ (OnNavigatedTo JSBundleNames false secondProbe started p).contentDialogShown =
        p.contentDialogShown
    ∧ (OnNavigatedTo JSBundleNames false secondProbe started p).dispatcherQueue =
        p.dispatcherQueue
    ∧ (OnNavigatedTo JSBundleNames false secondProbe started p).loadedHandlers =
        p.loadedHandlers := by
  have hrun : OnNavigatedTo JSBundleNames false secondProbe started p =
      { p with messageDialogs := p.messageDialogs ++ [bundleNotFoundMessage JSBundleNames] } := by
    simp [OnNavigatedTo, LoadFromJSBundle, LoadJSBundleFrom, ReactInstance.LoadJSBundleFrom, hs]
  refine ⟨by rw [hrun], ?_, by rw [hrun], by rw [hrun], by rw [hrun], by rw [hrun],
    by rw [hrun], by rw [hrun], by rw [hrun]⟩
  simp only [bundleNotFoundMessage, foldl_append_eq_join]
  rfl

/-- Witness of C7: two bundle names, no dev server, no embedded bundle. -/
theorem no_bundle_presents_one_dialog_witness :
    (OnNavigatedTo ["index.windows", "main.windows"] false false (fun _ => false)
        examplePage).messageDialogs =
      examplePage.messageDialogs ++ [bundleNotFoundMessage ["index.windows", "main.windows"]]
    ∧ (OnNavigatedTo ["index.windows", "main.windows"] false false (fun _ => false)
        examplePage).debugMenu = examplePage.debugMenu :=
  ⟨(no_bundle_presents_one_dialog ["index.windows", "main.windows"] false (fun _ => false)
      examplePage rfl).1,
   (no_bundle_presents_one_dialog ["index.windows", "main.windows"] false (fun _ => false)
      examplePage rfl).2.2.1⟩

/-- C8. For every page and every component whose presentation style is "modal",
`LoadReactComponent` sets the component name and initial properties of the dialog root view
(binding it to the instance's host when it has none), sets the dialog title to the display
name, else the app key, and shows the dialog; the primary root view and the window title
stay as they are. For every component with another or no presentation style it sets the
component name and initial properties of the primary root view (binding it likewise) and
the window title to the display name, else the app key; the dialog root view and the
dialog stay as they are. Nothing else on the page changes. -/
theorem LoadReactComponent_fans_out (component : Component) (p : MainPage) :
    (component.presentationStyle = some "modal" →
      LoadReactComponent component p =
        { p with
          dialogReactRootView :=
            { reactNativeHost :=
                some (p.dialogReactRootView.reactNativeHost.getD p.reactInstance.reactNativeHost)
              componentName := component.appKey
              initialProps := some { initialProps := component.initialProperties } }
          contentDialogTitle := some (component.displayName.getD component.appKey)
          contentDialogShown := p.contentDialogShown + 1 }
      ∧ (LoadReactComponent component p).reactRootView = p.reactRootView
      ∧ (LoadReactComponent component p).appTitle = p.appTitle)
    ∧ (component.presentationStyle ≠ some "modal" →
      LoadReactComponent component p =
        { p with
          reactRootView :=
            { reactNativeHost :=
                some (p.reactRootView.reactNativeHost.getD p.reactInstance.reactNativeHost)
              componentName := component.appKey
              initialProps := some { initialProps := component.initialProperties } }
          appTitle := component.displayName.getD component.appKey }
      ∧ (LoadReactComponent component p).dialogReactRootView = p.dialogReactRootView
      ∧ (LoadReactComponent component p).contentDialogTitle = p.contentDialogTitle
      ∧ (LoadReactComponent component p).contentDialogShown = p.contentDialogShown) := by
  constructor
  · intro hm
    have h : component.presentationStyle.getD "" = "modal" := (getD_eq_modal _).mpr hm
    unfold LoadReactComponent
    simp only [h, if_true, and_self, and_true]
    cases hh : p.dialogReactRootView.reactNativeHost <;>
      simp [InitializeReactRootView, RootView.bindHost, hh]
  · intro hm
    have h : ¬ component.presentationStyle.getD "" = "modal" :=
      fun hc => hm ((getD_eq_modal _).mp hc)
    unfold LoadReactComponent
    simp only [h, if_false, and_self, and_true]
    cases hh : p.reactRootView.reactNativeHost <;>
      simp [InitializeReactRootView, RootView.bindHost, hh]

/-- Witness of C8: the modal and the plain component of the example on the example page. -/
theorem LoadReactComponent_fans_out_witness :
    (LoadReactComponent
        { appKey := "Modal", displayName := some "Modal screen",
          presentationStyle := some "modal" } examplePage).reactRootView =
      examplePage.reactRootView
    ∧ (LoadReactComponent { appKey := "Example" } examplePage).dialogReactRootView =
      examplePage.dialogReactRootView :=
  ⟨((LoadReactComponent_fans_out
      { appKey := "Modal", displayName := some "Modal screen",
        presentationStyle := some "modal" } examplePage).1 rfl).2.1,
   ((LoadReactComponent_fans_out { appKey := "Example" } examplePage).2 (by simp)).2.1⟩

/-! ## Reported app keys and the idempotent rebuild -/

theorem storedIndexInRange_of_defined (components : List Component) (p p1 : MainPage)
    (h : OnComponentsRegistered true components p = some p1) :
    storedIndexInRange components p := by
  by_cases hn : components.length = 1
  · exact Or.inr (Or.inl hn)
  · rcases Bool.eq_false_or_eq_true p.isLoaded with hl | hl
    · exact Or.inl hl
    · refine Or.inr (Or.inr ?_)
      intro i hs
      by_contra hi
      have hc : components[i]? = none := List.getElem?_eq_none (by omega)
      unfold OnComponentsRegistered at h
      simp [hl, hn, hs, hc] at h

/-- C9. `InitializeReactMenu` on a manifest with zero components appends no menu entry and
installs the delegate that registers reported app keys. For every reported list of N app
keys the delegate leaves the menu as the items up to the last separator followed by exactly
N entries, entry `i` (from 0) being the one of the `i`-th key; each of the first nine
carries exactly one accelerator, with modifiers 5, which is Control (1) together with Shift
(4), and key `49 + i`, the numeral `i + 1` counted from Number1 (49), and the access key
`i + 1`, different positions having different keys; entries from the tenth on carry no
accelerator; so `min N 9` entries are accelerator-bound, nine when nine keys are reported.
Reported off the UI thread, the registration is queued on the dispatcher and the menu is
rebuilt when the queued call runs. -/
theorem reported_keys_rebuild_menu :
    (∀ (p : MainPage) (manifest : Manifest) (hasThreadAccess : Bool),
      manifest.components = [] →
      ∃ p1, InitializeReactMenu (some manifest) hasThreadAccess p = some p1 ∧
        p1.reactMenuItems = p.reactMenuItems ∧
        p1.reactInstance.onComponentsRegistered =
          some ComponentsRegisteredDelegate.registerAndPresent)
    ∧ (∀ (p : MainPage) (appKeys : List String),
      p.reactInstance.onComponentsRegistered =
        some ComponentsRegisteredDelegate.registerAndPresent →
      storedIndexInRange (appKeys.map fun appKey => ({ appKey := appKey } : Component)) p →
      ∃ p1, componentsRegistered appKeys true p = some p1 ∧
        p1.reactMenuItems = keepThroughLastSeparator p.reactMenuItems ++
          componentMenuEntries 0 (appKeys.map fun appKey => ({ appKey := appKey } : Component)))
    ∧ (∀ (p : MainPage) (appKeys : List String),
      p.reactInstance.onComponentsRegistered =
        some ComponentsRegisteredDelegate.registerAndPresent →
      ∃ p1, componentsRegistered appKeys false p = some p1 ∧
        p1.reactMenuItems = p.reactMenuItems ∧
        p1.dispatcherQueue = p.dispatcherQueue ++
          [(CoreDispatcherPriority.Normal,
             DispatchedWork.onComponentsRegistered
               (appKeys.map fun appKey => ({ appKey := appKey } : Component))),
           (CoreDispatcherPriority.Low, DispatchedWork.presentReactMenu)] ∧
        ∀ q : MainPage,
          runDispatched (DispatchedWork.onComponentsRegistered
              (appKeys.map fun appKey => ({ appKey := appKey } : Component))) q =
            OnComponentsRegistered true
              (appKeys.map fun appKey => ({ appKey := appKey } : Component)) q)
    ∧ (∀ appKeys : List String,
      (componentMenuEntries 0
          (appKeys.map fun appKey => ({ appKey := appKey } : Component))).length =
        appKeys.length
      ∧ (∀ (i : Nat) (key : String), appKeys[i]? = some key →
        (componentMenuEntries 0
            (appKeys.map fun appKey => ({ appKey := appKey } : Component)))[i]? =
          some (MenuItem.item (componentMenuItem i { appKey := key })))
      ∧ ((componentMenuEntries 0
            (appKeys.map fun appKey => ({ appKey := appKey } : Component))).filter
          MenuItem.acceleratorBound).length = min appKeys.length 9
      ∧ (appKeys.length = 9 →
        ((componentMenuEntries 0
            (appKeys.map fun appKey => ({ appKey := appKey } : Component))).filter
          MenuItem.acceleratorBound).length = 9))
    ∧ (∀ (i : Nat) (key : String), i < 9 →
      (componentMenuItem i { appKey := key }).text = key
      ∧ (componentMenuItem i { appKey := key }).keyboardAccelerators =
        [{ modifiers := 5, key := 49 + (i : Int) }]
      ∧ (componentMenuItem i { appKey := key }).accessKey = toString ((i : Int) + 1)
      ∧ (componentMenuItem i { appKey := key }).click =
        some { component := { appKey := key }, index := i })
    ∧ (VirtualKeyModifiers.Control = 1 ∧ VirtualKeyModifiers.Shift = 4
      ∧ VirtualKeyModifiers.or VirtualKeyModifiers.Control VirtualKeyModifiers.Shift = 5
      ∧ VirtualKey.Number1 = 49 ∧ VirtualKey.Number9 = 49 + 8)
    ∧ (∀ (i j : Nat) (c d : Component), i < 9 → j < 9 →
      (componentMenuItem i c).keyboardAccelerators =
        (componentMenuItem j d).keyboardAccelerators → i = j)
    ∧ (∀ (i : Nat) (key : String), 9 ≤ i →
      (componentMenuItem i { appKey := key }).text = key
      ∧ (componentMenuItem i { appKey := key }).keyboardAccelerators = []) := by
  refine ⟨?_, ?_, ?_, ?_, ?_, by decide, ?_, ?_⟩
  · intro p manifest hasThreadAccess hc
    simp [InitializeReactMenu, hc, ReactInstance.SetComponentsRegisteredDelegate]
  · intro p appKeys hd hr
    obtain ⟨p1, h1⟩ := OnComponentsRegistered_defined _ p hr
    obtain ⟨queue, handlers, rfl⟩ := OnComponentsRegistered_shape _ p p1 h1
    refine ⟨_, by simp only [componentsRegistered, hd, h1, Option.map_some']; rfl, ?_⟩
    simp [PresentReactMenu]
  · intro p appKeys hd
    refine ⟨_, by simp only [componentsRegistered, hd, OnComponentsRegistered,
      Bool.not_false, if_true, Option.map_some']; rfl, ?_, ?_, fun _ => rfl⟩
    · simp [PresentReactMenu]
    · simp [PresentReactMenu]
  · intro appKeys
    refine ⟨by simp [componentMenuEntries_length], ?_, ?_, ?_⟩
    · intro i key hk
      have := componentMenuEntries_get
        (appKeys.map fun appKey => ({ appKey := appKey } : Component)) 0 i
        { appKey := key } (by simp [hk])
      simpa using this
    · simp [componentMenuEntries_bound]
    · intro h9
      simp [componentMenuEntries_bound, h9]
  · intro i key hi
    simp [componentMenuItem, hi]
  · intro i j c d hi hj h
    simp only [componentMenuItem, hi, hj, if_true, List.cons.injEq, and_true,
      KeyboardAccelerator.mk.injEq, true_and] at h
    omega
  · intro i key hi
    have : ¬ i < 9 := by omega
    simp [componentMenuItem, this]

/-- Witness of C9: a manifest without components on the example page, then nine keys
reported on the UI thread to the page that awaits them: the handler runs, the menu is the
five items of the markup followed by nine entries, all nine accelerator-bound, the first
with Control+Shift+1 and the ninth with Control+Shift+9. -/
theorem reported_keys_rebuild_menu_witness :
    (∃ p1, InitializeReactMenu
        (some { displayName := "Example", bundleRoot := none, checksum := "c0ffee",
                components := [] }) true examplePage = some p1 ∧
      p1.reactMenuItems = examplePage.reactMenuItems ∧
      p1.reactInstance.onComponentsRegistered =
        some ComponentsRegisteredDelegate.registerAndPresent)
    ∧ (∃ p1, componentsRegistered exampleReportedKeys true examplePageAwaitingKeys = some p1 ∧
        p1.reactMenuItems = keepThroughLastSeparator examplePageAwaitingKeys.reactMenuItems ++
          componentMenuEntries 0
            (exampleReportedKeys.map fun appKey => ({ appKey := appKey } : Component)))
    ∧ (componentsRegistered exampleReportedKeys true examplePageAwaitingKeys).map
        (fun q => (q.reactMenuItems.length,
          (q.reactMenuItems.filter MenuItem.acceleratorBound).length,
          (q.reactMenuItems.drop 5).map fun item =>
            match item with
            | MenuItem.separator => []
            | MenuItem.item entry => entry.keyboardAccelerators))
        = some (14, 9,
            [[{ modifiers := 5, key := 49 }], [{ modifiers := 5, key := 50 }],
             [{ modifiers := 5, key := 51 }], [{ modifiers := 5, key := 52 }],
             [{ modifiers := 5, key := 53 }], [{ modifiers := 5, key := 54 }],
             [{ modifiers := 5, key := 55 }], [{ modifiers := 5, key := 56 }],
             [{ modifiers := 5, key := 57 }]])
    ∧ ((componentMenuEntries 0
          (exampleReportedKeys.map fun appKey => ({ appKey := appKey } : Component))).filter
        MenuItem.acceleratorBound).length = 9
    ∧ (componentMenuItem 8 { appKey := "K9" }).keyboardAccelerators =
        [{ modifiers := 5, key := 49 + ((8 : Nat) : Int) }] :=
  ⟨reported_keys_rebuild_menu.1 examplePage
      { displayName := "Example", bundleRoot := none, checksum := "c0ffee", components := [] }
      true rfl,
   reported_keys_rebuild_menu.2.1 examplePageAwaitingKeys exampleReportedKeys rfl
      (Or.inr (Or.inr (by
        intro i hi
        simp [examplePageAwaitingKeys, examplePage, Session.GetLastOpenedComponent] at hi))),
   by decide,
   (reported_keys_rebuild_menu.2.2.2.1 exampleReportedKeys).2.2.2 rfl,
   ((reported_keys_rebuild_menu.2.2.2.2.1 8 "K9" (by decide)).2).1⟩

theorem scanEvents_append (events rest : List WriterEvent) :
    ∀ frames : List NestingFrame,
      scanEvents (events ++ rest) frames =
        (scanEvents events frames).bind (scanEvents rest) := by
  induction events with
  | nil => intro frames; simp [scanEvents]
  | cons e more ih =>
    intro frames
    simp only [List.cons_append, scanEvents]
    cases nestingStep e frames with
    | none => simp
    | some after => simpa using ih after

mutual
theorem scanEvents_referenceWrites : ∀ (value : PropertyValue)
    (frames after : List NestingFrame), value.supported = true →
    afterValue frames = some after →
    scanEvents (referenceWrites value) frames = some after
  | .boolean _, _, _, _, h => by simp [referenceWrites, scanEvents, nestingStep, h]
  | .int64 _, _, _, _, h => by simp [referenceWrites, scanEvents, nestingStep, h]
  | .uint64 _, _, _, _, h => by simp [referenceWrites, scanEvents, nestingStep, h]
  | .double _, _, _, _, h => by simp [referenceWrites, scanEvents, nestingStep, h]
  | .null, _, _, _, h => by simp [referenceWrites, scanEvents, nestingStep, h]
  | .string _, _, _, _, h => by simp [referenceWrites, scanEvents, nestingStep, h]
  | .array elements, frames, after, hs, h => by
    have hel : supportedElements elements = true := by simpa [PropertyValue.supported] using hs
    have ih := scanEvents_referenceElements elements after hel
    have hw : referenceWrites (.array elements) =
        .WriteArrayBegin :: (referenceElements elements ++ [.WriteArrayEnd]) := by
      simp [referenceWrites]
    rw [hw]
    simp only [scanEvents, nestingStep, h, Option.map_some', scanEvents_append, ih,
      Option.some_bind]
  | .object entries, frames, after, hs, h => by
    have hen : supportedEntries entries = true := by simpa [PropertyValue.supported] using hs
    have ih := scanEvents_referenceEntries entries after hen
    have hw : referenceWrites (.object entries) =
        .WriteObjectBegin :: (referenceEntries entries ++ [.WriteObjectEnd]) := by
      simp [referenceWrites]
    rw [hw]
    simp only [scanEvents, nestingStep, h, Option.map_some', scanEvents_append, ih,
      Option.some_bind]
  | .other, _, _, hs, _ => by simp [PropertyValue.supported] at hs
theorem scanEvents_referenceElements : ∀ (elements : List PropertyValue)
    (below : List NestingFrame), supportedElements elements = true →
    scanEvents (referenceElements elements) (NestingFrame.array :: below) =
      some (NestingFrame.array :: below)
  | [], _, _ => by simp [referenceElements, scanEvents]
  | e :: rest, below, hs => by
    simp only [supportedElements, Bool.and_eq_true] at hs
    have h1 := scanEvents_referenceWrites e (NestingFrame.array :: below)
      (NestingFrame.array :: below) hs.1 rfl
    have h2 := scanEvents_referenceElements rest below hs.2
    simp only [referenceElements, scanEvents_append, h1, Option.some_bind, h2]
theorem scanEvents_referenceEntries : ∀ (entries : List (String × PropertyValue))
    (below : List NestingFrame), supportedEntries entries = true →
    scanEvents (referenceEntries entries) (NestingFrame.objectName :: below) =
      some (NestingFrame.objectName :: below)
  | [], _, _ => by simp [referenceEntries, scanEvents]
  | (name, value) :: rest, below, hs => by
    simp only [supportedEntries, Bool.and_eq_true] at hs
    have h1 := scanEvents_referenceWrites value (NestingFrame.objectValue :: below)
      (NestingFrame.objectName :: below) hs.1 rfl
    have h2 := scanEvents_referenceEntries rest below hs.2
    have hw : referenceEntries ((name, value) :: rest) =
        .WritePropertyName name :: (referenceWrites value ++ referenceEntries rest) := by
      simp [referenceEntries]
    rw [hw]
    simp only [scanEvents, nestingStep, scanEvents_append, h1, Option.some_bind, h2]
end

theorem oneCompleteValue_rejects_unclosed :
    oneCompleteValue [.WriteArrayBegin, .WriteNull] = false
    ∧ oneCompleteValue [.WriteArrayBegin, .WriteObjectBegin, .WriteArrayEnd, .WriteObjectEnd]
        = false
    ∧ oneCompleteValue [.WriteObjectBegin, .WritePropertyName "k", .WriteObjectEnd] = false
    ∧ oneCompleteValue [.WriteObjectBegin, .WritePropertyName "k", .WriteNull, .WriteNull,
        .WriteObjectEnd] = false
    ∧ oneCompleteValue [.WriteNull, .WriteNull] = false
    ∧ oneCompleteValue [] = false := by
  decide

/-- C11. For every property value built from the supported tags, the events
`WritePropertyValue` appends to the writer are one complete well-nested value: read in any
place where a value may stand they leave that place with exactly one value taken, every
array-begin closed by its array-end and every object-begin by its object-end in nested
order, every property name inside an object followed at once by exactly one complete value;
read on their own they are one complete value. So the initial-properties callback installed
by `InitializeReactRootView` appends nothing when the component has no initial properties,
and otherwise exactly one balanced object, from object-begin to the object-end closing
it. -/
theorem writes_are_one_well_nested_value :
    (∀ (value : PropertyValue) (writer : JSValueWriter), value.supported = true →
      ∃ emitted, WritePropertyValue value writer = some (writer ++ emitted) ∧
        oneCompleteValue emitted = true ∧
        ∀ frames after : List NestingFrame, afterValue frames = some after →
          scanEvents emitted frames = some after)
    ∧ (∀ (view : RootView) (component : Component) (writer : JSValueWriter),
      component.initialProperties = none →
      ∃ callback, (InitializeReactRootView view component).initialProps = some callback ∧
        callback.invoke writer = some writer)
    ∧ (∀ (view : RootView) (component : Component) (props : List (String × PropertyValue))
        (writer : JSValueWriter),
      component.initialProperties = some props → supportedEntries props = true →
      ∃ callback emitted,
        (InitializeReactRootView view component).initialProps = some callback ∧
        callback.invoke writer = some (writer ++ emitted) ∧
        oneBalancedObject emitted = true ∧
        emitted.getLast? = some WriterEvent.WriteObjectEnd) := by
  refine ⟨?_, ?_, ?_⟩
  · intro value writer hs
    refine ⟨referenceWrites value, WritePropertyValue_eq value writer hs, ?_,
      fun frames after h => scanEvents_referenceWrites value frames after hs h⟩
    simp [oneCompleteValue, scanEvents_referenceWrites value [NestingFrame.top] [] hs rfl]
  · intro view component writer hnone
    exact ⟨{ initialProps := component.initialProperties }, rfl,
      by simp [JSValueArgWriter.invoke, hnone]⟩
  · intro view component props writer hprops hs
    have hobj : (PropertyValue.object props).supported = true := by
      simpa [PropertyValue.supported] using hs
    have hscan := scanEvents_referenceWrites (.object props) [NestingFrame.top] [] hobj rfl
    refine ⟨{ initialProps := component.initialProperties }, referenceWrites (.object props),
      rfl, ?_, ?_, ?_⟩
    · simp [JSValueArgWriter.invoke, hprops, writeInitialProps_eq_writeEntries,
        writeEntries_eq props _ hs, referenceWrites]
    · have hhead : (referenceWrites (.object props)).head? =
          some WriterEvent.WriteObjectBegin := by
        simp [referenceWrites]
      simp [oneBalancedObject, oneCompleteValue, hscan, hhead]
    · have hw : referenceWrites (.object props) =
          (WriterEvent.WriteObjectBegin :: referenceEntries props) ++
            [WriterEvent.WriteObjectEnd] := by
        simp [referenceWrites]
      rw [hw, List.getLast?_append]
      rfl

/-- Witness of C11: an array holding an integer and an object, and a component whose
initial properties hold an array. -/
theorem writes_are_one_well_nested_value_witness :
    (PropertyValue.array [.int64 1, .object [("k", .array [])]]).supported = true
    ∧ (∃ emitted,
        WritePropertyValue (.array [.int64 1, .object [("k", .array [])]]) [] =
          some ([] ++ emitted) ∧
        oneCompleteValue emitted = true ∧
        ∀ frames after : List NestingFrame, afterValue frames = some after →
          scanEvents emitted frames = some after)
    ∧ (∃ callback emitted,
        (InitializeReactRootView RootView.unset
          { appKey := "App"
            initialProperties := some [("d", .array [.int64 1, .int64 2])] }).initialProps
          = some callback ∧
        callback.invoke [] = some ([] ++ emitted) ∧
        oneBalancedObject emitted = true ∧
        emitted.getLast? = some WriterEvent.WriteObjectEnd) :=
  ⟨by decide,
   writes_are_one_well_nested_value.1 (.array [.int64 1, .object [("k", .array [])]]) []
     (by decide),
   writes_are_one_well_nested_value.2.2 RootView.unset
     { appKey := "App", initialProperties := some [("d", .array [.int64 1, .int64 2])] }
     [("d", .array [.int64 1, .int64 2])] [] rfl (by decide)⟩

end ReactTestApp
